import Mathlib

/-!
Verification of the price-monitoring core of the repository
(`src/rust_core/src/price_monitor.rs` and `src/rust_core/src/types.rs`).

Shallow embedding conventions:
* Rust `f64` values are modelled as exact rationals `ℚ`; the code only
  compares, subtracts, divides and multiplies them, and every claim is
  about the branching structure of that arithmetic.
* `HashMap<String, V>` is modelled as the function `String → Option V`,
  with `insert` as pointwise update and `remove` as pointwise erasure.
* `Utc::now()` is modelled by an explicit `now : ℕ` argument.
* The `Result<_, String>` wrapper in the Rust API can only fail on lock
  poisoning (`RwLock` errors); in the sequential embedding locks never
  fail, so each operation is total.  No function in the source validates
  prices or thresholds, so there is no other error path to model.
-/

/-- `types.rs` `PriceData`: price data point stored in the `prices` map. -/
structure PriceData where
  token : String
  price : ℚ
  timestamp : ℕ
  volume_24h : Option ℚ
  change_24h : Option ℚ
deriving DecidableEq, Repr

/-- `types.rs` `PriceAlert`: price alert configuration stored in the
`alerts` map. -/
structure PriceAlert where
  token : String
  threshold_percent : ℚ
  last_price : ℚ
  active : Bool
deriving DecidableEq, Repr

/-- `price_monitor.rs` `PriceMonitor`: the two hash maps guarded by
read/write locks in the source, modelled as functions to `Option`. -/
structure PriceMonitor where
  alerts : String → Option PriceAlert
  prices : String → Option PriceData

namespace PriceMonitor

/-- `PriceMonitor::new`: both maps empty. -/
def new : PriceMonitor :=
  { alerts := fun _ => none, prices := fun _ => none }

/-- `PriceMonitor::add_alert`: unconditionally inserts a rule with
`last_price = 0.0` and `active = true` for `token` (the source performs
no validation of `threshold_percent`). -/
def add_alert (m : PriceMonitor) (token : String) (threshold_percent : ℚ) :
    PriceMonitor :=
  let alert : PriceAlert :=
    { token := token
      threshold_percent := threshold_percent
      last_price := 0
      active := true }
  { m with alerts := fun t => if t = token then some alert else m.alerts t }

/-- `PriceMonitor::remove_alert`: removes the rule for `token` if present. -/
def remove_alert (m : PriceMonitor) (token : String) : PriceMonitor :=
  { m with alerts := fun t => if t = token then none else m.alerts t }

/-- `PriceMonitor::update_price`: stores the new snapshot unconditionally
(no validation of `price`), then evaluates the alert rule for `token` if
one exists.  Returns the updated state together with the optional
`change_percent` that the Rust function returns inside `Ok`. -/
def update_price (m : PriceMonitor) (token : String) (price : ℚ) (now : ℕ) :
    PriceMonitor × Option ℚ :=
  let price_data : PriceData :=
    { token := token
      price := price
      timestamp := now
      volume_24h := none
      change_24h := none }
  let prices1 : String → Option PriceData :=
    fun t => if t = token then some price_data else m.prices t
  match m.alerts token with
  | some alert =>
      if alert.last_price > 0 then
        let change_percent := (price - alert.last_price) / alert.last_price * 100
        if |change_percent| ≥ alert.threshold_percent then
          let alert1 := { alert with last_price := price }
          ({ alerts := fun t => if t = token then some alert1 else m.alerts t
             prices := prices1 },
           some change_percent)
        else
          ({ m with prices := prices1 }, none)
      else
        let alert1 := { alert with last_price := price }
        ({ alerts := fun t => if t = token then some alert1 else m.alerts t
           prices := prices1 },
         none)
  | none => ({ m with prices := prices1 }, none)

/-- `PriceMonitor::get_price`: the stored snapshot's price, if any. -/
def get_price (m : PriceMonitor) (token : String) : Option ℚ :=
  (m.prices token).map fun p => p.price

end PriceMonitor

/-- Overwrite the `active` flag of `token`'s rule, leaving everything else
unchanged; identity when no rule exists.  Used to state that the code
never reads `active`. -/
def setActive (m : PriceMonitor) (token : String) (b : Bool) : PriceMonitor :=
  match m.alerts token with
  | some alert =>
      { m with alerts := fun t =>
          if t = token then some { alert with active := b } else m.alerts t }
  | none => m

/-- The fields of a rule other than `active`. -/
def ruleData (a : PriceAlert) : String × ℚ × ℚ :=
  (a.token, a.threshold_percent, a.last_price)

/-- A concrete monitor holding a rule and a snapshot for both "SOL" and
"BTC", used to instantiate the frame property. -/
def mC8 : PriceMonitor :=
  ((((PriceMonitor.new.add_alert "SOL" 2).add_alert "BTC" 3).update_price
      "SOL" 100 0).1.update_price "BTC" 200 1).1

/-- C2: the spec claims `update_price` rejects a price `p ≤ 0` with an
`InvalidPrice` error and leaves all state untouched.  The code performs
no validation: at the failing input `("SOL", -1)` on a fresh monitor with
a registered 2% rule, the call succeeds (returns the `Ok(None)` of the
source, i.e. no error and no alert), stores the negative price so that
`get_price` afterwards returns `-1`, and seeds the rule's `last_price`
with `-1`, changing the rule state. -/
theorem update_price_accepts_negative :
    (((PriceMonitor.new.add_alert "SOL" 2).update_price "SOL" (-1) 0).2 = none) ∧
    (((PriceMonitor.new.add_alert "SOL" 2).update_price "SOL" (-1) 0).1.get_price "SOL"
      = some (-1)) ∧
    (((PriceMonitor.new.add_alert "SOL" 2).update_price "SOL" (-1) 0).1.alerts "SOL"
      = some ⟨"SOL", 2, -1, true⟩) := by
  refine ⟨rfl, rfl, rfl⟩

/-- C3: the spec claims `add_alert` rejects `threshold_percent ≤ 0` with an
`InvalidThreshold` error and creates no rule.  The code performs no
validation: at the failing input `("SOL", 0)` on a fresh monitor it
succeeds and installs a rule with threshold `0`. -/
theorem add_alert_accepts_zero_threshold :
    (PriceMonitor.new.add_alert "SOL" 0).alerts "SOL" = some ⟨"SOL", 0, 0, true⟩ := by
  rfl

/-- C4: when the rule's reference price (`last_price`) is `0`, any
`update_price` for that token returns no alert and overwrites the
reference price with the new price, whatever that price is. -/
theorem update_price_seeds_baseline (m : PriceMonitor) (token : String)
    (price : ℚ) (now : ℕ) (alert : PriceAlert)
    (hrule : m.alerts token = some alert)
    (hzero : alert.last_price = 0) :
    (m.update_price token price now).2 = none ∧
    (m.update_price token price now).1.alerts token
      = some { alert with last_price := price } := by
  simp only [PriceMonitor.update_price, hrule]
  rw [if_neg (by rw [hzero]; exact lt_irrefl 0)]
  exact ⟨rfl, by simp⟩

/-- C4 witness: register a 2% rule for "SOL" (reference price 0), then
ingest the price `-5`; no alert fires and the reference price becomes `-5`. -/
theorem update_price_seeds_baseline_witness :
    ((PriceMonitor.new.add_alert "SOL" 2).update_price "SOL" (-5) 0).2 = none ∧
    ((PriceMonitor.new.add_alert "SOL" 2).update_price "SOL" (-5) 0).1.alerts "SOL"
      = some { (⟨"SOL", 2, 0, true⟩ : PriceAlert) with last_price := -5 } :=
  update_price_seeds_baseline (PriceMonitor.new.add_alert "SOL" 2) "SOL" (-5) 0
    ⟨"SOL", 2, 0, true⟩ rfl rfl

/-- C6: `add_alert` with a positive threshold installs, for the given
token, a rule with `last_price` reset to `0` and `active = true`,
independently of any previously registered rule for that token (so
re-registering discards the prior reference price). -/
theorem add_alert_resets_rule (m : PriceMonitor) (token : String)
    (threshold_percent : ℚ) (h : 0 < threshold_percent) :
    (m.add_alert token threshold_percent).alerts token
      = some ⟨token, threshold_percent, 0, true⟩ := by
  simp [PriceMonitor.add_alert]

/-- C6 witness: a monitor whose "SOL" rule already carries reference price
`100` is re-registered with threshold `5`; the new rule has reference
price `0` and `active = true`. -/
theorem add_alert_resets_rule_witness :
    (0:ℚ) < 5 ∧
    ((((PriceMonitor.new.add_alert "SOL" 2).update_price "SOL" 100 0).1.add_alert
        "SOL" 5).alerts "SOL" = some ⟨"SOL", 5, 0, true⟩) :=
  ⟨by norm_num,
   add_alert_resets_rule ((PriceMonitor.new.add_alert "SOL" 2).update_price "SOL" 100 0).1
     "SOL" 5 (by norm_num)⟩

/-- C1: when the rule's reference price is positive and the percentage
change of the new price against it reaches the threshold in absolute
value, `update_price` returns `some change_percent` with
`change_percent = (new_price - reference_price) / reference_price * 100`
and re-baselines the rule's reference price to the new price. -/
theorem update_price_fires (m : PriceMonitor) (token : String)
    (price : ℚ) (now : ℕ) (alert : PriceAlert)
    (hrule : m.alerts token = some alert)
    (hpos : 0 < alert.last_price)
    (hthr : |(price - alert.last_price) / alert.last_price * 100|
              ≥ alert.threshold_percent) :
    (m.update_price token price now).2
      = some ((price - alert.last_price) / alert.last_price * 100) ∧
    (m.update_price token price now).1.alerts token
      = some { alert with last_price := price } := by
  simp only [PriceMonitor.update_price, hrule]
  rw [if_pos hpos, if_pos hthr]
  exact ⟨rfl, by simp⟩

/-- C1 witness: with a 2% rule on "SOL" whose reference price is `100`,
ingesting `103` (a 3% move) returns `some 3` and re-baselines to `103`. -/
theorem update_price_fires_witness :
    (((PriceMonitor.new.add_alert "SOL" 2).update_price "SOL" 100 0).1.update_price
        "SOL" 103 1).2 = some ((103 - (100:ℚ)) / 100 * 100) ∧
    (((PriceMonitor.new.add_alert "SOL" 2).update_price "SOL" 100 0).1.update_price
        "SOL" 103 1).1.alerts "SOL"
      = some { (⟨"SOL", 2, 100, true⟩ : PriceAlert) with last_price := 103 } :=
  update_price_fires ((PriceMonitor.new.add_alert "SOL" 2).update_price "SOL" 100 0).1
    "SOL" 103 1 ⟨"SOL", 2, 100, true⟩ rfl (by norm_num) (by norm_num)

/-- C5: when the rule's reference price is positive and the percentage
change of the new price against it stays strictly below the threshold in
absolute value, `update_price` returns no alert and leaves the rule
(including its reference price) unchanged. -/
theorem update_price_below_threshold (m : PriceMonitor) (token : String)
    (price : ℚ) (now : ℕ) (alert : PriceAlert)
    (hrule : m.alerts token = some alert)
    (hpos : 0 < alert.last_price)
    (hlt : |(price - alert.last_price) / alert.last_price * 100|
             < alert.threshold_percent) :
    (m.update_price token price now).2 = none ∧
    (m.update_price token price now).1.alerts token = some alert := by
  simp only [PriceMonitor.update_price, hrule]
  rw [if_pos hpos, if_neg (not_le.mpr hlt)]
  exact ⟨rfl, hrule⟩

/-- C5 witness: with a 2% rule on "SOL" whose reference price is `100`,
ingesting `101` (a 1% move) yields no alert and the rule is unchanged. -/
theorem update_price_below_threshold_witness :
    (((PriceMonitor.new.add_alert "SOL" 2).update_price "SOL" 100 0).1.update_price
        "SOL" 101 1).2 = none ∧
    (((PriceMonitor.new.add_alert "SOL" 2).update_price "SOL" 100 0).1.update_price
        "SOL" 101 1).1.alerts "SOL" = some ⟨"SOL", 2, 100, true⟩ :=
  update_price_below_threshold
    ((PriceMonitor.new.add_alert "SOL" 2).update_price "SOL" 100 0).1
    "SOL" 101 1 ⟨"SOL", 2, 100, true⟩ rfl (by norm_num) (by norm_num)

/-- C7: for a token with no registered rule, `update_price` with a valid
(positive) price returns no alert but still stores the snapshot, so
`get_price` afterwards returns the ingested price. -/
theorem update_price_no_rule (m : PriceMonitor) (token : String)
    (price : ℚ) (now : ℕ)
    (hrule : m.alerts token = none) (hpos : 0 < price) :
    (m.update_price token price now).2 = none ∧
    (m.update_price token price now).1.get_price token = some price := by
  simp [PriceMonitor.update_price, hrule, PriceMonitor.get_price]

/-- C7 witness: on a fresh monitor (no rule for "SOL"), ingesting `145.5`
returns no alert and `get_price "SOL"` afterwards returns `145.5`. -/
theorem update_price_no_rule_witness :
    (PriceMonitor.new.update_price "SOL" (291/2) 0).2 = none ∧
    (PriceMonitor.new.update_price "SOL" (291/2) 0).1.get_price "SOL"
      = some (291/2) :=
  update_price_no_rule PriceMonitor.new "SOL" (291/2) 0 rfl (by norm_num)

/-- C8: operations on one token do not touch another token's entries:
`update_price`, `add_alert` and `remove_alert` for token `t` leave both
the stored snapshot and the alert rule of any other token `u` unchanged. -/
theorem ops_preserve_other_tokens (m : PriceMonitor) (t u : String)
    (price threshold_percent : ℚ) (now : ℕ) (hne : t ≠ u) :
    (m.update_price t price now).1.prices u = m.prices u ∧
    (m.update_price t price now).1.alerts u = m.alerts u ∧
    (m.add_alert t threshold_percent).alerts u = m.alerts u ∧
    (m.add_alert t threshold_percent).prices u = m.prices u ∧
    (m.remove_alert t).alerts u = m.alerts u ∧
    (m.remove_alert t).prices u = m.prices u := by
  have hut : u ≠ t := hne.symm
  have hupd : (m.update_price t price now).1.prices u = m.prices u ∧
      (m.update_price t price now).1.alerts u = m.alerts u := by
    cases h : m.alerts t with
    | none => simp [PriceMonitor.update_price, h, hut]
    | some a =>
        by_cases h1 : a.last_price > 0
        · by_cases h2 : |(price - a.last_price) / a.last_price * 100|
              ≥ a.threshold_percent
          · simp [PriceMonitor.update_price, h, h1, h2, hut]
          · simp [PriceMonitor.update_price, h, h1, h2, hut]
        · simp [PriceMonitor.update_price, h, h1, hut]
  exact ⟨hupd.1, hupd.2,
    by simp [PriceMonitor.add_alert, hut], rfl,
    by simp [PriceMonitor.remove_alert, hut], rfl⟩

/-- C8 witness: on a monitor holding state for both "SOL" and "BTC",
operations on "SOL" leave "BTC"'s snapshot and rule untouched. -/
theorem ops_preserve_other_tokens_witness :
    "SOL" ≠ "BTC" ∧
    (((mC8.update_price "SOL" 103 2).1.prices "BTC" = mC8.prices "BTC" ∧
      (mC8.update_price "SOL" 103 2).1.alerts "BTC" = mC8.alerts "BTC" ∧
      (mC8.add_alert "SOL" 5).alerts "BTC" = mC8.alerts "BTC" ∧
      (mC8.add_alert "SOL" 5).prices "BTC" = mC8.prices "BTC" ∧
      (mC8.remove_alert "SOL").alerts "BTC" = mC8.alerts "BTC" ∧
      (mC8.remove_alert "SOL").prices "BTC" = mC8.prices "BTC")) :=
  ⟨by decide, ops_preserve_other_tokens mC8 "SOL" "BTC" 103 5 2 (by decide)⟩

/-- C9: a rule whose stored `last_price` is non-positive (reachable, since
prices are never validated) behaves as still-unset: `update_price`
returns no alert and overwrites `last_price` with the new price; and an
alert can only ever be returned when the rule's prior `last_price` was
strictly positive. -/
theorem update_price_nonpositive_reference (m : PriceMonitor) (token : String)
    (price : ℚ) (now : ℕ) (alert : PriceAlert)
    (hrule : m.alerts token = some alert) :
    (alert.last_price ≤ 0 →
      (m.update_price token price now).2 = none ∧
      (m.update_price token price now).1.alerts token
        = some { alert with last_price := price }) ∧
    (∀ c : ℚ, (m.update_price token price now).2 = some c
      → 0 < alert.last_price) := by
  constructor
  · intro hle
    simp only [PriceMonitor.update_price, hrule]
    rw [if_neg (not_lt.mpr hle)]
    exact ⟨rfl, by simp⟩
  · intro c hc
    rcases lt_or_le 0 alert.last_price with h0 | h0
    · exact h0
    · exfalso
      simp only [PriceMonitor.update_price, hrule] at hc
      rw [if_neg (not_lt.mpr h0)] at hc
      exact Option.noConfusion hc

/-- C9 witness: a "SOL" rule with `last_price = -1` (seeded by an invalid
ingest); updating with price `50` yields no alert and overwrites
`last_price` with `50`. -/
theorem update_price_nonpositive_reference_witness :
    ((-1:ℚ) ≤ 0) ∧
    ((((PriceMonitor.new.add_alert "SOL" 2).update_price "SOL" (-1) 0).1.update_price
        "SOL" 50 1).2 = none ∧
     (((PriceMonitor.new.add_alert "SOL" 2).update_price "SOL" (-1) 0).1.update_price
        "SOL" 50 1).1.alerts "SOL"
       = some { (⟨"SOL", 2, -1, true⟩ : PriceAlert) with last_price := 50 }) :=
  ⟨by norm_num,
   (update_price_nonpositive_reference
      ((PriceMonitor.new.add_alert "SOL" 2).update_price "SOL" (-1) 0).1
      "SOL" 50 1 ⟨"SOL", 2, -1, true⟩ rfl).1 (by norm_num)⟩

/-- C10: `update_price` never reads the `active` flag: flipping the flag
of the token's rule changes neither the returned optional
`change_percent`, nor the resulting price map, nor any resulting rule's
token/threshold/`last_price` data. -/
theorem update_price_ignores_active (m : PriceMonitor) (token : String)
    (b : Bool) (price : ℚ) (now : ℕ) :
    ((setActive m token b).update_price token price now).2
      = (m.update_price token price now).2 ∧
    (∀ t, ((setActive m token b).update_price token price now).1.prices t
      = (m.update_price token price now).1.prices t) ∧
    (∀ t, Option.map ruleData
        (((setActive m token b).update_price token price now).1.alerts t)
      = Option.map ruleData ((m.update_price token price now).1.alerts t)) := by
  cases h : m.alerts token with
  | none => simp [setActive, h]
  | some alert =>
      have hA : (setActive m token b).alerts token
          = some { alert with active := b } := by
        simp [setActive, h]
      have hA' : ∀ t, t ≠ token →
          (setActive m token b).alerts t = m.alerts t := by
        intro t ht
        simp [setActive, h, ht]
      have hP : (setActive m token b).prices = m.prices := by
        simp [setActive, h]
      refine ⟨?_, ?_, ?_⟩
      · simp only [PriceMonitor.update_price, h, hA]
        by_cases h1 : alert.last_price > 0
        · by_cases h2 : |(price - alert.last_price) / alert.last_price * 100|
              ≥ alert.threshold_percent
          · simp [h1, h2]
          · simp [h1, h2]
        · simp [h1]
      · intro t
        simp only [PriceMonitor.update_price, h, hA, hP]
        by_cases h1 : alert.last_price > 0
        · by_cases h2 : |(price - alert.last_price) / alert.last_price * 100|
              ≥ alert.threshold_percent
          · simp [h1, h2]
          · simp [h1, h2]
        · simp [h1]
      · intro t
        simp only [PriceMonitor.update_price, h, hA]
        by_cases h1 : alert.last_price > 0
        · by_cases h2 : |(price - alert.last_price) / alert.last_price * 100|
              ≥ alert.threshold_percent
          · by_cases ht : t = token
            · simp [h1, h2, ht, ruleData]
            · simp [h1, h2, ht, hA' t ht]
          · by_cases ht : t = token
            · simp [h1, h2, ht, hA, h, ruleData]
            · simp [h1, h2, ht, hA' t ht]
        · by_cases ht : t = token
          · simp [h1, ht, ruleData]
          · simp [h1, ht, hA' t ht]
